import Mathlib

/-!
Shallow embedding of the protocol/query core of `src/server.js`
(a Minecraft server status monitor), together with theorems checking the
natural-language specification against it.

Conventions used throughout:
* Node `Buffer`s are `List Nat` whose elements are byte values `< 256`.
* JavaScript numbers holding protocol integers are `Nat`/`Int`; 32-bit
  bitwise operators (`&`, `|`, `<<`, `>>>`) are embedded with explicit
  `% 2 ^ 32` wrapping and a final signed reinterpretation (`toInt32`).
* A thrown JS exception is an `Option`/`Except` error value.
* External collaborators (the `net` socket, `fs`, `crypto.createHash`,
  `JSON.parse`) are inputs: socket activity arrives as a list of events,
  file I/O outcomes and parsed JSON arrive as `Except` values, and the
  md5 fingerprint arrives as an opaque string argument.
-/

namespace MCStat

/-! ## VarInt codec (`writeVarInt`, lines 104-115 / 236-247; `readVarInt`, lines 280-292) -/

/-- One iteration chain of the `do { temp = value & 0x7F; value >>>= 7; ... }
while (value !== 0)` loop shared by both `writeVarInt` variants in
`src/server.js`.  Emits the 7-bit groups least-significant first, setting the
continuation bit `0x80` on every byte except the last. -/
def writeVarIntLoop (value : Nat) : List Nat :=
  if h : value / 128 = 0 then
    [value % 128]
  else
    (value % 128 + 128) :: writeVarIntLoop (value / 128)
termination_by value
decreasing_by
  simp_wf
  omega

/-- `writeVarInt(value)` from `src/server.js`.  The first `value >>>= 7` (and
`value & 0x7F`) coerce the JS number to 32 bits, hence the initial wrap. -/
def writeVarInt (value : Nat) : List Nat :=
  writeVarIntLoop (value % 2 ^ 32)

/-- Signed reinterpretation of a 32-bit pattern, as produced by the JS `|` and
`<<` operators. -/
def toInt32 (p : Nat) : Int :=
  if p < 2 ^ 31 then (p : Int) else (p : Int) - 2 ^ 32

/-- The `do { b = buffer.readUInt8(offset++); result |= (b & 0x7F) << shift;
shift += 7; } while (b & 0x80)` loop of `readVarInt` (lines 280-292),
consuming the buffer from the front.  `none` models the `RangeError`
thrown by `buffer.readUInt8` past the end of the buffer.  The JS `<<`
shifts by `shift % 32` and wraps to 32 bits; `|` operates on the 32-bit
patterns.  Returns the accumulated 32-bit pattern and the number of bytes
consumed. -/
def readVarIntAux : List Nat → Nat → Nat → Option (Nat × Nat)
  | [], _, _ => none
  | b :: rest, result, shift =>
    let result' := result ||| ((b % 128) * 2 ^ (shift % 32)) % 2 ^ 32
    if b &&& 128 ≠ 0 then
      match readVarIntAux rest result' (shift + 7) with
      | none => none
      | some (v, c) => some (v, c + 1)
    else
      some (result', 1)

/-- `readVarInt(buffer, offset)` from `src/server.js` (lines 280-292): returns
`{ value, offset }`, where `value` is the signed 32-bit reading of the
accumulator, or `none` when the read runs past the end of the buffer. -/
def readVarInt (buffer : List Nat) (offset : Nat) : Option (Int × Nat) :=
  match readVarIntAux (buffer.drop offset) 0 0 with
  | none => none
  | some (p, c) => some (toInt32 p, offset + c)

/-! ### Byte-level helper lemmas -/

lemma land128_eq_zero {b : Nat} (h : b < 128) : b &&& 128 = 0 := by
  have h7 : b.testBit 7 = false := Nat.testBit_lt_two_pow (by norm_num; omega)
  have h2 := Nat.and_two_pow b 7
  rw [h7] at h2
  norm_num at h2
  exact h2

lemma land128_ne_zero {x : Nat} (h : x < 128) : (x + 128) &&& 128 ≠ 0 := by
  have h7 : (x + 128).testBit 7 = true := by
    rw [Nat.testBit_to_div_mod]
    have h1 : (x + 128) / 2 ^ 7 = 1 := by norm_num; omega
    rw [h1]
    norm_num
  have h2 := Nat.and_two_pow (x + 128) 7
  rw [h7] at h2
  norm_num at h2
  omega

lemma lor_disjoint {a d s : Nat} (ha : a < 2 ^ s) : a ||| d * 2 ^ s = a + d * 2 ^ s := by
  have h := Nat.mul_add_lt_is_or (i := s) ha d
  calc a ||| d * 2 ^ s = 2 ^ s * d ||| a := by
        rw [Nat.or_comm, Nat.mul_comm]
    _ = 2 ^ s * d + a := h.symm
    _ = a + d * 2 ^ s := by ring

/-- Decoding an encoded value placed at the front of a buffer recovers the
value: the accumulator/shift invariants follow the JS loop, with all
intermediate 32-bit patterns staying below `2 ^ 31` when the total decoded
value does. -/
lemma readVarIntAux_write (v : Nat) : ∀ (rest : List Nat) (result shift : Nat),
    result < 2 ^ shift → result + v * 2 ^ shift < 2 ^ 31 →
    readVarIntAux (writeVarIntLoop v ++ rest) result shift
      = some (result + v * 2 ^ shift, (writeVarIntLoop v).length) := by
  induction v using Nat.strong_induction_on with
  | _ v ih =>
    intro rest result shift hres hbound
    by_cases h : v / 128 = 0
    · -- last byte: v < 128, continuation bit clear
      have hv : v < 128 := by omega
      rw [writeVarIntLoop]
      rw [dif_pos h]
      simp only [List.cons_append, List.nil_append, List.length_singleton]
      rw [readVarIntAux]
      have hmod : v % 128 = v := Nat.mod_eq_of_lt hv
      simp only [hmod]
      have hb0 : v &&& 128 = 0 := land128_eq_zero hv
      rw [hb0]
      simp only [ne_eq, not_true_eq_false, ite_false, not_false_eq_true]
      by_cases hv0 : v = 0
      · subst hv0; simp
      · have hsh : shift < 32 := by
          by_contra hge
          have h1 : (2:Nat) ^ 32 ≤ 2 ^ shift := Nat.pow_le_pow_right (by norm_num) (by omega)
          have h2 : 2 ^ shift ≤ v * 2 ^ shift := Nat.le_mul_of_pos_left _ (by omega)
          have h31 : v * 2 ^ shift < 2 ^ 31 := by omega
          have h3 : (2:Nat) ^ 31 < 2 ^ 32 := by norm_num
          omega
        have hshm : shift % 32 = shift := Nat.mod_eq_of_lt hsh
        rw [hshm]
        have hsmall : v * 2 ^ shift < 2 ^ 32 := by
          have h3 : (2:Nat) ^ 31 < 2 ^ 32 := by norm_num
          omega
        rw [Nat.mod_eq_of_lt hsmall, lor_disjoint hres]
    · -- continuation byte: low 7 bits of v, continuation bit set
      have hv : 128 ≤ v := by omega
      rw [writeVarIntLoop]
      rw [dif_neg h]
      simp only [List.cons_append, List.length_cons]
      rw [readVarIntAux]
      have hbm : (v % 128 + 128) % 128 = v % 128 := by omega
      rw [hbm]
      have hb : (v % 128 + 128) &&& 128 ≠ 0 := land128_ne_zero (Nat.mod_lt _ (by norm_num))
      rw [if_pos hb]
      have hsh : shift < 32 := by
        by_contra hge
        have h1 : (2:Nat) ^ 32 ≤ 2 ^ shift := Nat.pow_le_pow_right (by norm_num) (by omega)
        have h2 : 2 ^ shift ≤ v * 2 ^ shift := Nat.le_mul_of_pos_left _ (by omega)
        have h31 : v * 2 ^ shift < 2 ^ 31 := by omega
        have h3 : (2:Nat) ^ 31 < 2 ^ 32 := by norm_num
        omega
      have hshm : shift % 32 = shift := Nat.mod_eq_of_lt hsh
      rw [hshm]
      have hsmall : v % 128 * 2 ^ shift < 2 ^ 32 := by
        have h1 : v % 128 * 2 ^ shift ≤ v * 2 ^ shift :=
          Nat.mul_le_mul_right _ (Nat.mod_le _ _)
        have h31 : v * 2 ^ shift < 2 ^ 31 := by omega
        have h3 : (2:Nat) ^ 31 < 2 ^ 32 := by norm_num
        omega
      rw [Nat.mod_eq_of_lt hsmall, lor_disjoint hres]
      have hpow : (2:Nat) ^ (shift + 7) = 2 ^ shift * 128 := by
        rw [pow_add]; norm_num
      have hmd : v % 128 + 128 * (v / 128) = v := Nat.mod_add_div v 128
      have ihres : result + v % 128 * 2 ^ shift < 2 ^ (shift + 7) := by
        have h1 : v % 128 * 2 ^ shift ≤ 127 * 2 ^ shift :=
          Nat.mul_le_mul_right _ (by omega)
        have h2 : (0:Nat) < 2 ^ shift := Nat.pos_pow_of_pos _ (by norm_num)
        rw [hpow]
        nlinarith
      have ihbound : (result + v % 128 * 2 ^ shift) + (v / 128) * 2 ^ (shift + 7) < 2 ^ 31 := by
        have hsplit : v % 128 * 2 ^ shift + (v / 128) * (2 ^ shift * 128) = v * 2 ^ shift := by
          calc v % 128 * 2 ^ shift + v / 128 * (2 ^ shift * 128)
              = (v % 128 + 128 * (v / 128)) * 2 ^ shift := by ring
            _ = v * 2 ^ shift := by rw [hmd]
        rw [hpow]
        omega
      rw [ih (v / 128) (by omega) rest _ _ ihres ihbound]
      have hsplit2 : (result + v % 128 * 2 ^ shift) + (v / 128) * 2 ^ (shift + 7)
          = result + v * 2 ^ shift := by
        rw [hpow]
        have hsplit : v % 128 * 2 ^ shift + (v / 128) * (2 ^ shift * 128) = v * 2 ^ shift := by
          calc v % 128 * 2 ^ shift + v / 128 * (2 ^ shift * 128)
              = (v % 128 + 128 * (v / 128)) * 2 ^ shift := by ring
            _ = v * 2 ^ shift := by rw [hmd]
        omega
      rw [hsplit2]

/-- Decoding an encoded value at any offset where the encoding starts. -/
lemma readVarInt_at {buffer : List Nat} {off v : Nat} {rest : List Nat}
    (hv : v < 2 ^ 31)
    (hdrop : buffer.drop off = writeVarIntLoop v ++ rest) :
    readVarInt buffer off = some ((v : Int), off + (writeVarIntLoop v).length) := by
  have haux := readVarIntAux_write v rest 0 0 (by norm_num) (by norm_num; omega)
  rw [readVarInt, hdrop, haux]
  have hv2 : v < 2147483648 := by norm_num at hv; omega
  simp [toInt32, hv2]

/-- A buffer whose remaining bytes all carry the continuation bit never lets
the decode loop terminate: the loop runs off the end of the buffer. -/
lemma readVarIntAux_all_high : ∀ (l : List Nat) (result shift : Nat),
    (∀ b ∈ l, b &&& 128 ≠ 0) → readVarIntAux l result shift = none := by
  intro l
  induction l with
  | nil => intro result shift _; rfl
  | cons b rest ih =>
    intro result shift hall
    rw [readVarIntAux]
    rw [if_pos (hall b (List.mem_cons_self b rest))]
    rw [ih _ _ (fun x hx => hall x (List.mem_cons_of_mem b hx))]

/-! ## Parsed status JSON model

The status response body is external JSON handed back by `JSON.parse`.
Only the shape the data handler inspects is modelled: optional
`players.{online,max,sample}`, `version.{name,protocol}`, `description`
(a plain string or an object with an optional `text` field), `favicon`.
Absent fields (and JSON `null`) are `none`. -/

/-- `description` as the data handler sees it: a JSON string or an object
with an optional `text` member. -/
inductive JDesc where
  | dstr (s : String)
  | dobj (text : Option String)
deriving Repr, DecidableEq

structure PlayersJson where
  online : Option Int
  max : Option Int
  sample : Option (List (String × String))
deriving Repr, DecidableEq

structure StatusJson where
  players : Option PlayersJson
  versionName : Option String
  versionProtocol : Option Int
  description : Option JDesc
  favicon : Option String
deriving Repr, DecidableEq

/-- JS `x || d` for a possibly-absent string: the empty string is falsy. -/
def orDefStr (o : Option String) (d : String) : String :=
  match o with
  | some s => if s = "" then d else s
  | none => d

/-- JS `x || d` for a possibly-absent number: `0` is falsy (and equals the
fallbacks used in the source, so the embedding agrees with JS either way). -/
def orDefInt (o : Option Int) (d : Int) : Int :=
  match o with
  | some n => if n = 0 then d else n
  | none => d

/-- `response.description?.text || response.description || 'A Minecraft
Server'` (line 145-147), by cases on the dynamic shape of `description`. -/
def coalesceDesc (o : Option JDesc) : JDesc :=
  match o with
  | some (.dobj (some t)) => if t = "" then .dobj (some "") else .dstr t
  | some (.dobj none) => .dobj none
  | some (.dstr s) => if s = "" then .dstr "A Minecraft Server" else .dstr s
  | none => .dstr "A Minecraft Server"

/-- `response.favicon || null` (line 148). -/
def coalesceFavicon (o : Option String) : Option String :=
  match o with
  | some s => if s = "" then none else some s
  | none => none

/-! ## Packet framer (`writePacket`, lines 117-122; `parseResponse`, lines 250-277) -/

/-- `writePacket(packetId, data)`: VarInt(packetId) is prepended to the
payload and the whole is prefixed with VarInt(total length). -/
def writePacket (packetId : Nat) (data : List Nat) : List Nat :=
  let packetIdBuffer := writeVarInt packetId
  let packet := packetIdBuffer ++ data
  let lengthBuffer := writeVarInt packet.length
  lengthBuffer ++ packet

/-- The three distinct failures `parseResponse` can throw: the `RangeError`
from `buffer.readUInt8` past the end (inside `readVarInt`), the
`'无效的数据包ID'` error for a nonzero packet id, and the
`'JSON解析失败: ...'` error wrapping a `JSON.parse` failure. -/
inductive ParseErr where
  | rangeThrow
  | invalidPacketId
  | jsonFail (msg : String)
deriving Repr, DecidableEq

/-- `parseResponse` (lines 250-277) up to the `JSON.parse` call: reads the
VarInt packet length (not used further), the VarInt packet id (must be 0),
the VarInt JSON length, then extracts that many bytes.  `buffer.toString`
clamps the range to the end of the buffer and yields the empty string for
a negative length, hence `take jsonLength.toNat`. -/
def parseResponseBytes (buffer : List Nat) : Except ParseErr (List Nat) :=
  match readVarInt buffer 0 with
  | none => .error .rangeThrow
  | some (_length, offset1) =>
    match readVarInt buffer offset1 with
    | none => .error .rangeThrow
    | some (packetId, offset2) =>
      if packetId ≠ 0 then .error .invalidPacketId
      else
        match readVarInt buffer offset2 with
        | none => .error .rangeThrow
        | some (jsonLength, offset3) =>
          .ok ((buffer.drop offset3).take jsonLength.toNat)

/-- Full `parseResponse`: the extracted bytes are deserialized by the
external `JSON.parse`, supplied as the `jsonParse` argument; its failure
is rethrown as `'JSON解析失败: ...'`. -/
def parseResponse (jsonParse : List Nat → Except String StatusJson)
    (buffer : List Nat) : Except ParseErr StatusJson :=
  match parseResponseBytes buffer with
  | .error e => .error e
  | .ok jsonData =>
    match jsonParse jsonData with
    | .ok v => .ok v
    | .error msg => .error (.jsonFail msg)

/-! ## Probe client (`queryMinecraftServer`, lines 58-202)

One probe owns one socket.  The socket's activity is an input: a list of
events in arrival order (`connect`, `data`, `error`, `close`, `timeout`,
plus the 6-second backup timer and a synchronous `socket.connect` throw).
`runProbe` folds the handlers of lines 97-200 over that list; the
`hasResolved` flag makes the first resolving handler win, so `runProbe`
returns at the first resolution.  Elapsed milliseconds since `startTime`
(`Date.now() - startTime`) arrive with the events that read the clock. -/

structure PlayersOut where
  online : Int
  max : Int
  sample : List (String × String)
deriving Repr, DecidableEq

/-- The `responseData` object of lines 75-85 plus the fields the data
handler adds.  `id` is the md5 fingerprint of `` `${host}:${port}` ``
truncated to 8 hex characters, computed by the external `crypto` module
and supplied as an argument. -/
structure ResponseData where
  id : String
  name : String
  address : String
  port : Nat
  online : Bool
  error : Option String
  ping : Option Nat
  latency : Option Nat
  version : Option String
  protocol : Option Int
  players : Option PlayersOut
  description : Option JDesc
  favicon : Option String
deriving Repr, DecidableEq

/-- Initial `responseData` (lines 75-85): offline, no error, no timings. -/
def initResponseData (fingerprint name host : String) (port : Nat) : ResponseData :=
  { id := fingerprint, name := name, address := host, port := port,
    online := false, error := none, ping := none, latency := none,
    version := none, protocol := none, players := none,
    description := none, favicon := none }

/-- Socket lifecycle events, carrying the elapsed time where the handler
reads the clock and, for `data`, the outcome of `parseResponse` on the
received chunk. -/
inductive SockEvent where
  | connect (elapsed : Nat)
  | data (elapsed : Nat) (parsed : Except String StatusJson)
  | errorEvt (msg : String)
  | close
  | timeoutEvt
  | timerFire
  | connectThrow (msg : String)
deriving Repr

/-- The `socket.on('data', ...)` handler (lines 133-157): on a parsed
response carrying a `players` field, mark online and populate every field;
on a `parseResponse` throw record a parse error; otherwise leave the state
untouched.  This handler never resolves the promise. -/
def onData (st : ResponseData) (elapsed : Nat)
    (parsed : Except String StatusJson) : ResponseData :=
  match parsed with
  | .error msg => { st with error := some ("解析响应失败: " ++ msg) }
  | .ok response =>
    match response.players with
    | none => st
    | some p =>
      { st with
        online := true
        version := some (orDefStr response.versionName "Unknown")
        protocol := some (orDefInt response.versionProtocol 0)
        players := some { online := orDefInt p.online 0, max := orDefInt p.max 0,
                          sample := p.sample.getD [] }
        description := some (coalesceDesc response.description)
        favicon := coalesceFavicon response.favicon
        ping := some (st.ping.getD 0)
        latency := some elapsed }

/-- One socket event through the handlers of lines 87-200: the updated
`responseData` and, when the handler resolves the promise, the resolved
value. -/
def stepProbe (st : ResponseData) (e : SockEvent) : ResponseData × Option ResponseData :=
  match e with
  | .connect elapsed => ({ st with ping := some elapsed }, none)
  | .data elapsed parsed => (onData st elapsed parsed, none)
  | .errorEvt msg =>
    let st' := { st with error := some ("连接错误: " ++ msg), online := false }
    (st', some st')
  | .close =>
    let st' := { st with
      error := if st.error = none then some "连接关闭" else st.error,
      online := false }
    (st', some st')
  | .timeoutEvt =>
    let st' := { st with error := some "连接超时", online := false }
    (st', some st')
  | .timerFire =>
    let st' := { st with error := some "连接超时", online := false }
    (st', some st')
  | .connectThrow msg =>
    let st' := { st with error := some ("连接失败: " ++ msg), online := false }
    (st', some st')

/-- `queryMinecraftServer`'s promise: the first resolving event wins
(`hasResolved`), later events are ignored; `none` when no event resolves. -/
def runProbe (st : ResponseData) : List SockEvent → Option ResponseData
  | [] => none
  | e :: rest =>
    match stepProbe st e with
    | (_, some r) => some r
    | (st', none) => runProbe st' rest

/-! ## Target store (`getServerList` lines 36-44, `saveServerList` lines 47-55)

`fs.readFile`+`JSON.parse` and `fs.writeFile` are external; their outcomes
are `Except` inputs. -/

/-- A JS id value: the ids in `servers.json` are numbers (assigned by the
add route as `max(ids)+1`), while the probe's fingerprint id is a string. -/
inductive JVal where
  | jnum (n : Int)
  | jstr (s : String)
deriving Repr, DecidableEq

/-- A record of `servers.json`. -/
structure Target where
  id : JVal
  name : String
  address : String
  port : Nat
  category : Option String
  description : Option String
deriving Repr, DecidableEq

/-- `getServerList()`: on any read or parse failure the catch block logs
and returns `[]`. -/
def getServerList (io : Except String (List Target)) : List Target :=
  match io with
  | .ok servers => servers
  | .error _ => []

/-- `saveServerList(servers)`: `true` on success, `false` from the catch
block on any write failure. -/
def saveServerList (io : Except String Unit) : Bool :=
  match io with
  | .ok _ => true
  | .error _ => false

/-! ## Per-target query (`queryServer`, lines 295-314) -/

/-- The merged object `{...server, ...result, category, description,
lastUpdated}` returned by `queryServer`, or its catch-block shape.  Fields
set only on one path are `Option`s. -/
structure QueryOut where
  id : JVal
  name : String
  address : String
  port : Nat
  category : Option String
  description : Option String
  online : Bool
  error : Option String
  ping : Option Nat
  latency : Option Nat
  version : Option String
  protocol : Option Int
  players : Option PlayersOut
deriving Repr, DecidableEq

/-- `queryServer(server)`: awaits `queryMinecraftServer(server.address,
server.port, server.name)` (outcome supplied as `probe`).  On success the
spread `{...server, ...result}` lets every `responseData` field — the
fingerprint `id` included — overwrite the server's, then `category` and
`description` are re-defaulted from the server.  The catch block keeps the
server's own fields and marks it offline with the error message. -/
def queryServer (server : Target) (probe : Except String ResponseData) : QueryOut :=
  match probe with
  | .ok result =>
    { id := .jstr result.id
      name := result.name
      address := result.address
      port := result.port
      category := some (orDefStr server.category "未分类")
      description := some ((server.description).getD "")
      online := result.online
      error := result.error
      ping := result.ping
      latency := result.latency
      version := result.version
      protocol := result.protocol
      players := result.players }
  | .error msg =>
    { id := server.id
      name := server.name
      address := server.address
      port := server.port
      category := server.category
      description := server.description
      online := false
      error := some msg
      ping := none
      latency := none
      version := none
      protocol := none
      players := some { online := 0, max := 0, sample := [] } }

/-! ## Result ranking (`queryAllServers` sort comparator, lines 336-343) -/

/-- The fields the comparator reads from a result: `online`,
`players.online` and `name`. -/
structure SortRec where
  online : Bool
  playersOnline : Int
  name : String
deriving Repr, DecidableEq

/-- `a.name.localeCompare(b.name)` embedded as code-point string order:
only the sign is ever used. -/
def strCmp (a b : String) : Int :=
  if a < b then -1 else if b < a then 1 else 0

/-- The sort comparator of lines 336-343. -/
def compareResults (a b : SortRec) : Int :=
  match a.online, b.online with
  | true, false => -1
  | false, true => 1
  | true, true => b.playersOnline - a.playersOnline
  | false, false => strCmp a.name b.name

/-- `a` may come before `b` under the comparator. -/
def sortLe (a b : SortRec) : Prop := compareResults a b ≤ 0

instance : DecidableRel sortLe := fun a b =>
  inferInstanceAs (Decidable (compareResults a b ≤ 0))

/-- `results.sort(comparator)`: ECMAScript `Array.prototype.sort` is
stable and sorts consistently with the comparator; for the consistent
comparator proved total and transitive below, the stable insertion sort
produces that unique output. -/
def sortResults (l : List SortRec) : List SortRec :=
  List.insertionSort sortLe l

/-! ## Fleet query and cache (`serverCache` lines 19-23, `queryAllServers`
lines 317-362, cache clears in the routes at lines 422/496/534/546) -/

/-- The snapshot stored in `serverCache.data` (lines 346-353); `timestamp`
is the `Date.now()` the snapshot was built at. -/
structure Snapshot where
  servers : List SortRec
  total : Nat
  onlineCount : Nat
  totalPlayers : Int
  timestamp : Nat
deriving Repr, DecidableEq

/-- `serverCache`: cached snapshot (`none` before the first fill — the
initial `data: {}`), fill time, and 30-second TTL. -/
structure ServerCache where
  data : Option Snapshot
  lastUpdated : Nat
  ttl : Nat
deriving Repr, DecidableEq

def initialServerCache : ServerCache :=
  { data := none, lastUpdated := 0, ttl := 30000 }

/-- The snapshot build of lines 336-353 on the settled per-target results. -/
def buildSnapshot (results : List SortRec) (now : Nat) : Snapshot :=
  let sortedResults := sortResults results
  { servers := sortedResults
    total := sortedResults.length
    onlineCount := (sortedResults.filter (fun s => s.online)).length
    totalPlayers := sortedResults.foldl (fun sum s => sum + s.playersOnline) 0
    timestamp := now }

/-- `queryAllServers(useCache)` at time `now`: a cache hit returns the
cached data and issues no probes; otherwise every target is probed (the
settled results arrive as `results`), the snapshot is built, stored and
returned.  The returned `Bool` records whether probes were issued. -/
def queryAllServers (cache : ServerCache) (useCache : Bool) (now : Nat)
    (results : List SortRec) : Option Snapshot × ServerCache × Bool :=
  if useCache ∧ now - cache.lastUpdated < cache.ttl then
    (cache.data, cache, false)
  else
    let snap := buildSnapshot results now
    (some snap, { cache with data := some snap, lastUpdated := now }, true)

/-- `serverCache.lastUpdated = 0`, as performed by the mutation and
refresh routes to force the next `queryAllServers` past the cache. -/
def invalidate (cache : ServerCache) : ServerCache :=
  { cache with lastUpdated := 0 }

/-- `writeVarIntLoop 0 = [0]` (the do-while emits one byte for zero). -/
lemma writeVarIntLoop_zero : writeVarIntLoop 0 = [0] := by
  rw [writeVarIntLoop]
  norm_num

/-- The encoding of `v < 128 ^ k` is at most `k + 1` bytes long. -/
lemma writeVarIntLoop_length_le : ∀ (k v : Nat), v < 128 ^ k →
    (writeVarIntLoop v).length ≤ k + 1 := by
  intro k
  induction k with
  | zero =>
    intro v hv
    have hv0 : v = 0 := by omega
    subst hv0
    rw [writeVarIntLoop_zero]
    simp
  | succ k ih =>
    intro v hv
    rw [writeVarIntLoop]
    by_cases h : v / 128 = 0
    · rw [dif_pos h]; simp
    · rw [dif_neg h]
      have hd : v / 128 < 128 ^ k := by
        rw [pow_succ] at hv
        exact Nat.div_lt_of_lt_mul (by omega)
      have := ih (v / 128) hd
      simpa using this

/-! ## Theorems for the claims -/

/-- C6: for every `0 ≤ n ≤ 2^31 - 1`, decoding the byte sequence produced
by the VarInt encoder from offset 0 yields `n` back (and consumes exactly
the encoding). -/
theorem varint_roundtrip (n : Nat) (h : n ≤ 2 ^ 31 - 1) :
    readVarInt (writeVarInt n) 0 = some ((n : Int), (writeVarInt n).length) := by
  have hlt : n < 2 ^ 31 := by omega
  have hn32 : n % 2 ^ 32 = n := by
    apply Nat.mod_eq_of_lt
    have h3 : (2:Nat) ^ 31 < 2 ^ 32 := by norm_num
    omega
  have hdrop : (writeVarInt n).drop 0 = writeVarIntLoop n ++ [] := by
    rw [writeVarInt, hn32, List.drop_zero, List.append_nil]
  have := readVarInt_at hlt hdrop
  rw [this, writeVarInt, hn32]
  norm_num

theorem varint_roundtrip_witness :
    (300 : Nat) ≤ 2 ^ 31 - 1 ∧
      readVarInt (writeVarInt 300) 0 = some ((300 : Int), (writeVarInt 300).length) :=
  ⟨by norm_num, varint_roundtrip 300 (by norm_num)⟩

/-- C8: a buffer whose bytes from `offset` on all carry the continuation
bit (or are exhausted) makes the decoder run past the end; its only exit
there is the bounds-checked `RangeError` of `buffer.readUInt8`, embedded
as `none`/`ParseErr.rangeThrow` — an outcome distinct from the
malformed-packet and JSON failures, so a caller can tell them apart. -/
theorem readVarInt_truncated_throws (buffer : List Nat) (offset : Nat)
    (h : ∀ b ∈ buffer.drop offset, b &&& 128 ≠ 0) :
    readVarInt buffer offset = none ∧
      (offset = 0 → parseResponseBytes buffer = .error .rangeThrow) ∧
      (∀ msg, ParseErr.rangeThrow ≠ ParseErr.invalidPacketId ∧
        ParseErr.rangeThrow ≠ ParseErr.jsonFail msg) := by
  have hnone : readVarInt buffer offset = none := by
    rw [readVarInt, readVarIntAux_all_high _ _ _ h]
  refine ⟨hnone, ?_, ?_⟩
  · intro h0
    subst h0
    rw [parseResponseBytes, hnone]
  · intro msg
    exact ⟨by simp, by simp⟩

theorem readVarInt_truncated_throws_witness :
    (∀ b ∈ ([128, 255] : List Nat).drop 0, b &&& 128 ≠ 0) ∧
      readVarInt [128, 255] 0 = none ∧
      parseResponseBytes [128, 255] = .error .rangeThrow := by
  have h : ∀ b ∈ ([128, 255] : List Nat).drop 0, b &&& 128 ≠ 0 := by decide
  have hthm := readVarInt_truncated_throws [128, 255] 0 h
  exact ⟨h, hthm.1, hthm.2.1 rfl⟩

/-- C7 counterexample: framing packet id 1 with an empty payload and
parsing it back does not recover `(1, [])` — `parseResponse` rejects every
nonzero packet id with the `'无效的数据包ID'` error. -/
theorem writePacket_nonzero_id_rejected :
    parseResponseBytes (writePacket 1 []) = .error .invalidPacketId := by
  have h1 : writePacket 1 [] = [1, 1] := by
    simp [writePacket, writeVarInt, writeVarIntLoop]
  rw [h1]
  simp [parseResponseBytes, readVarInt, readVarIntAux, toInt32]

/-- C7 amended: for packet id 0 and a payload consisting of a VarInt
length prefix followed by that many body bytes — the only frames the
status client ever parses — parsing the framed packet recovers the body
exactly. -/
theorem writePacket_parse_roundtrip (body : List Nat)
    (h : body.length + 7 < 2 ^ 31) :
    parseResponseBytes (writePacket 0 (writeVarInt body.length ++ body))
      = .ok body := by
  set m := body.length with hm
  have hm31 : m < 2 ^ 31 := by omega
  have hm32 : m % 2 ^ 32 = m := by
    apply Nat.mod_eq_of_lt
    have h3 : (2:Nat) ^ 31 < 2 ^ 32 := by norm_num
    omega
  have hlenM : (writeVarIntLoop m).length ≤ 6 := by
    have : m < 128 ^ 5 := by
      have h5 : (2:Nat) ^ 31 < 128 ^ 5 := by norm_num
      omega
    have := writeVarIntLoop_length_le 5 m this
    omega
  -- the wire packet
  have hwv0 : writeVarInt 0 = [0] := by
    rw [writeVarInt]
    norm_num [writeVarIntLoop_zero]
  have hwvm : writeVarInt m = writeVarIntLoop m := by rw [writeVarInt, hm32]
  set lenM := (writeVarIntLoop m).length with hlM
  set packet : List Nat := [0] ++ (writeVarIntLoop m ++ body) with hpacket
  have hL : packet.length = 1 + lenM + m := by
    simp [hpacket, hlM, hm]
    omega
  have hL31 : packet.length < 2 ^ 31 := by omega
  have hL32 : packet.length % 2 ^ 32 = packet.length := by
    apply Nat.mod_eq_of_lt
    have h3 : (2:Nat) ^ 31 < 2 ^ 32 := by norm_num
    omega
  have hframe : writePacket 0 (writeVarInt m ++ body)
      = writeVarIntLoop packet.length ++ packet := by
    simp only [writePacket, hwv0, hwvm]
    rw [← hpacket, writeVarInt, hL32]
  set lenL := (writeVarIntLoop packet.length).length with hlL
  set frame := writeVarIntLoop packet.length ++ packet with hframe2
  -- first VarInt: the packet length
  have hr1 : readVarInt frame 0 = some ((packet.length : Int), lenL) := by
    have hdrop : frame.drop 0 = writeVarIntLoop packet.length ++ packet :=
      List.drop_zero _
    have := readVarInt_at hL31 hdrop
    simpa using this
  -- second VarInt: the packet id 0
  have hr2 : readVarInt frame lenL = some ((0 : Int), lenL + 1) := by
    have hdrop : frame.drop lenL = writeVarIntLoop 0 ++ (writeVarIntLoop m ++ body) := by
      rw [hframe2, hlL, List.drop_left, hpacket, writeVarIntLoop_zero]
    have := readVarInt_at (by norm_num) hdrop
    rw [this, writeVarIntLoop_zero]
    norm_num
  -- third VarInt: the JSON length
  have hr3 : readVarInt frame (lenL + 1) = some ((m : Int), lenL + 1 + lenM) := by
    have hdrop : frame.drop (lenL + 1) = writeVarIntLoop m ++ body := by
      rw [hframe2, hpacket]
      rw [show writeVarIntLoop packet.length ++ ([0] ++ (writeVarIntLoop m ++ body))
            = (writeVarIntLoop packet.length ++ [0]) ++ (writeVarIntLoop m ++ body) by
        simp]
      exact List.drop_left' (by simp [hlL])
    have hread := readVarInt_at hm31 hdrop
    rw [hread]
  -- the extracted JSON bytes are the body
  have hdrop4 : frame.drop (lenL + 1 + lenM) = body := by
    rw [hframe2, hpacket]
    rw [show writeVarIntLoop packet.length ++ ([0] ++ (writeVarIntLoop m ++ body))
          = (writeVarIntLoop packet.length ++ [0] ++ writeVarIntLoop m) ++ body by
      simp]
    exact List.drop_left' (by simp [hlL, hlM]; omega)
  rw [hframe]
  simp only [parseResponseBytes, hr1, hr2, hr3]
  norm_num [hdrop4, hm]

theorem writePacket_parse_roundtrip_witness :
    parseResponseBytes (writePacket 0 (writeVarInt 2 ++ [123, 125]))
      = .ok [123, 125] := by
  have h := writePacket_parse_roundtrip [123, 125] (by norm_num)
  simpa using h

/-- Every resolving handler of `queryMinecraftServer` resolves with
`online := false` and a non-null `error` (the close handler backfills
`'连接关闭'` when no earlier error was recorded). -/
lemma runProbe_offline_nonnull : ∀ (evts : List SockEvent) (st r : ResponseData),
    runProbe st evts = some r → r.online = false ∧ r.error ≠ none := by
  intro evts
  induction evts with
  | nil =>
    intro st r hr
    cases hr
  | cons e rest ih =>
    intro st r hr
    cases e with
    | connect t =>
      exact ih _ _ (by simpa [runProbe, stepProbe] using hr)
    | data t p =>
      exact ih _ _ (by simpa [runProbe, stepProbe] using hr)
    | errorEvt m =>
      simp only [runProbe, stepProbe] at hr
      injection hr with hr
      subst hr
      exact ⟨rfl, by simp⟩
    | close =>
      simp only [runProbe, stepProbe] at hr
      injection hr with hr
      subst hr
      refine ⟨rfl, ?_⟩
      by_cases hin : st.error = none <;> simp [hin]
    | timeoutEvt =>
      simp only [runProbe, stepProbe] at hr
      injection hr with hr
      subst hr
      exact ⟨rfl, by simp⟩
    | timerFire =>
      simp only [runProbe, stepProbe] at hr
      injection hr with hr
      subst hr
      exact ⟨rfl, by simp⟩
    | connectThrow m =>
      simp only [runProbe, stepProbe] at hr
      injection hr with hr
      subst hr
      exact ⟨rfl, by simp⟩

/-- No handler ever writes `responseData.id`: the resolved value carries
the fingerprint the probe started with. -/
lemma runProbe_preserves_id : ∀ (evts : List SockEvent) (st r : ResponseData),
    runProbe st evts = some r → r.id = st.id := by
  intro evts
  induction evts with
  | nil =>
    intro st r hr
    cases hr
  | cons e rest ih =>
    intro st r hr
    cases e with
    | connect t =>
      have := ih _ _ (by simpa [runProbe, stepProbe] using hr)
      simpa using this
    | data t p =>
      have := ih _ _ (by simpa [runProbe, stepProbe] using hr)
      rw [this]
      cases p with
      | error msg => rfl
      | ok response =>
        rw [onData]
        cases response.players <;> rfl
    | errorEvt m =>
      simp only [runProbe, stepProbe] at hr
      injection hr with hr
      subst hr
      rfl
    | close =>
      simp only [runProbe, stepProbe] at hr
      injection hr with hr
      subst hr
      rfl
    | timeoutEvt =>
      simp only [runProbe, stepProbe] at hr
      injection hr with hr
      subst hr
      rfl
    | timerFire =>
      simp only [runProbe, stepProbe] at hr
      injection hr with hr
      subst hr
      rfl
    | connectThrow m =>
      simp only [runProbe, stepProbe] at hr
      injection hr with hr
      subst hr
      rfl

/-- C2: every resolution of a probe started from the initial
`responseData` satisfies the claimed dichotomy: it never resolves offline
with a null error, and never online with a null player pair.  (In fact
every resolving path sets `online := false` and a non-null error.) -/
theorem probe_resolution_shape (fingerprint name host : String) (port : Nat)
    (events : List SockEvent) (r : ResponseData)
    (h : runProbe (initResponseData fingerprint name host port) events = some r) :
    (r.online = false → r.error ≠ none) ∧ (r.online = true → r.players ≠ none) := by
  have hr := runProbe_offline_nonnull events _ r h
  refine ⟨fun _ => hr.2, fun honline => ?_⟩
  rw [hr.1] at honline
  cases honline

/-- The resolved value of a probe that only ever sees a `close` event. -/
def closeOnlyResult : ResponseData :=
  { initResponseData "1a2b3c4d" "Example" "play.example.com" 25565 with
      error := some "连接关闭", online := false }

theorem probe_resolution_shape_witness :
    (closeOnlyResult.online = false → closeOnlyResult.error ≠ none) ∧
      (closeOnlyResult.online = true → closeOnlyResult.players ≠ none) :=
  probe_resolution_shape "1a2b3c4d" "Example" "play.example.com" 25565
    [SockEvent.close] closeOnlyResult
    (by simp [runProbe, stepProbe, initResponseData, closeOnlyResult])

/-- The spec's success-scenario status body:
`{players:{online:5,max:20},version:{name:"1.20.1",protocol:763}}`. -/
def scenarioStatusJson : StatusJson :=
  { players := some { online := some 5, max := some 20, sample := none }
    versionName := some "1.20.1"
    versionProtocol := some 763
    description := none
    favicon := none }

/-- C1: evaluating the probe on the spec's success scenario — the server
accepts the connection, replies with a well-formed status response
carrying `players.online = 5, players.max = 20`, and the socket closes
after the data handler's `socket.end()`.  The data handler populates the
player fields and sets `online := true`, but it never resolves; the close
handler, the only resolver on this path, overwrites `online := false` and
backfills `error := '连接关闭'` before resolving.  The probe therefore
resolves offline, against the claimed `{online:true, playersOnline:5,
playersMax:20}`. -/
theorem probe_success_scenario_resolves_offline :
    runProbe (initResponseData "1a2b3c4d" "Example" "play.example.com" 25565)
        [SockEvent.connect 12, SockEvent.data 43 (.ok scenarioStatusJson),
         SockEvent.close]
      = some
        { id := "1a2b3c4d", name := "Example", address := "play.example.com",
          port := 25565, online := false, error := some "连接关闭",
          ping := some 12, latency := some 43, version := some "1.20.1",
          protocol := some 763,
          players := some { online := 5, max := 20, sample := [] },
          description := some (.dstr "A Minecraft Server"), favicon := none } := by
  simp [runProbe, stepProbe, onData, initResponseData, scenarioStatusJson,
    orDefStr, orDefInt, coalesceDesc, coalesceFavicon]

/-- A parsed status body with no top-level `players` field. -/
def noPlayersJson : StatusJson :=
  { players := none, versionName := some "1.20.1", versionProtocol := some 763,
    description := none, favicon := none }

/-- C10: when the JSON parses but has no top-level `players` field, the
data handler records no error and marks nothing online (the state is
untouched), so nothing resolves until the connection closes; the close
handler then resolves `online := false` with the generic `'连接关闭'`. -/
theorem probe_no_players_resolves_on_close (fingerprint name host : String)
    (port t1 t2 : Nat) (j : StatusJson) (h : j.players = none) :
    runProbe (initResponseData fingerprint name host port)
        [SockEvent.connect t1, SockEvent.data t2 (.ok j)] = none ∧
      runProbe (initResponseData fingerprint name host port)
        [SockEvent.connect t1, SockEvent.data t2 (.ok j), SockEvent.close]
      = some { initResponseData fingerprint name host port with
                 ping := some t1, online := false, error := some "连接关闭" } := by
  constructor
  · simp [runProbe, stepProbe, onData, h, initResponseData]
  · simp [runProbe, stepProbe, onData, h, initResponseData]

theorem probe_no_players_resolves_on_close_witness :
    noPlayersJson.players = none ∧
      runProbe (initResponseData "1a2b3c4d" "Example" "play.example.com" 25565)
        [SockEvent.connect 12, SockEvent.data 43 (.ok noPlayersJson)] = none ∧
      runProbe (initResponseData "1a2b3c4d" "Example" "play.example.com" 25565)
        [SockEvent.connect 12, SockEvent.data 43 (.ok noPlayersJson), SockEvent.close]
      = some { initResponseData "1a2b3c4d" "Example" "play.example.com" 25565 with
                 ping := some 12, online := false, error := some "连接关闭" } := by
  have h := probe_no_players_resolves_on_close "1a2b3c4d" "Example"
    "play.example.com" 25565 12 43 noPlayersJson rfl
  exact ⟨rfl, h.1, h.2⟩

/-- A `servers.json` record as the add route creates them: a numeric id. -/
def exampleTarget : Target :=
  { id := .jnum 1, name := "Example", address := "play.example.com",
    port := 25565, category := none, description := none }

/-- C3: whatever value the md5 fingerprint takes, the `{...server,
...result}` spread in `queryServer` lets the probe's fingerprint string
overwrite the target's own numeric id, so the returned result's `id` is
the fingerprint string and never equals the target's `id`. -/
theorem queryServer_id_is_fingerprint (fp : String) (events : List SockEvent)
    (r : ResponseData)
    (h : runProbe (initResponseData fp "Example" "play.example.com" 25565) events
           = some r) :
    (queryServer exampleTarget (.ok r)).id = .jstr fp ∧
      exampleTarget.id = .jnum 1 ∧
      (queryServer exampleTarget (.ok r)).id ≠ exampleTarget.id := by
  have hid : r.id = fp := runProbe_preserves_id events _ r h
  refine ⟨by rw [queryServer, hid], rfl, ?_⟩
  rw [queryServer, hid]
  intro hcontra
  exact JVal.noConfusion hcontra

theorem queryServer_id_is_fingerprint_witness :
    (queryServer exampleTarget (.ok closeOnlyResult)).id = .jstr "1a2b3c4d" ∧
      exampleTarget.id = .jnum 1 ∧
      (queryServer exampleTarget (.ok closeOnlyResult)).id ≠ exampleTarget.id :=
  queryServer_id_is_fingerprint "1a2b3c4d" [SockEvent.close] closeOnlyResult
    (by simp [runProbe, stepProbe, initResponseData, closeOnlyResult])

/-! ## Ranking theorems -/

lemma strCmp_nonpos {x y : String} : strCmp x y ≤ 0 ↔ ¬ y < x := by
  rw [strCmp]
  rcases lt_trichotomy x y with h | h | h
  · simp [h, asymm h]
  · subst h
    simp [lt_irrefl]
  · simp [asymm h, h]

lemma sortLe_total : ∀ a b : SortRec, sortLe a b ∨ sortLe b a := by
  intro a b
  rw [sortLe, sortLe, compareResults, compareResults]
  cases ha : a.online <;> cases hb : b.online
  · show strCmp a.name b.name ≤ 0 ∨ strCmp b.name a.name ≤ 0
    rw [strCmp_nonpos, strCmp_nonpos]
    rcases le_total a.name b.name with h | h
    · left; exact not_lt.mpr h
    · right; exact not_lt.mpr h
  · show (1 : Int) ≤ 0 ∨ (-1 : Int) ≤ 0
    right; norm_num
  · show (-1 : Int) ≤ 0 ∨ (1 : Int) ≤ 0
    left; norm_num
  · show b.playersOnline - a.playersOnline ≤ 0 ∨ a.playersOnline - b.playersOnline ≤ 0
    omega

lemma sortLe_trans : ∀ a b c : SortRec, sortLe a b → sortLe b c → sortLe a c := by
  intro a b c
  rw [sortLe, sortLe, sortLe, compareResults, compareResults, compareResults]
  cases ha : a.online <;> cases hb : b.online <;> cases hc : c.online <;>
    intro h1 h2
  · show strCmp a.name c.name ≤ 0
    have g1 : strCmp a.name b.name ≤ 0 := h1
    have g2 : strCmp b.name c.name ≤ 0 := h2
    rw [strCmp_nonpos] at g1 g2 ⊢
    exact not_lt.mpr (le_trans (not_lt.mp g1) (not_lt.mp g2))
  · exact absurd (show (1 : Int) ≤ 0 from h2) (by norm_num)
  · exact absurd (show (1 : Int) ≤ 0 from h1) (by norm_num)
  · exact absurd (show (1 : Int) ≤ 0 from h1) (by norm_num)
  · show (-1 : Int) ≤ 0
    norm_num
  · exact absurd (show (1 : Int) ≤ 0 from h2) (by norm_num)
  · show (-1 : Int) ≤ 0
    norm_num
  · show c.playersOnline - a.playersOnline ≤ 0
    have g1 : b.playersOnline - a.playersOnline ≤ 0 := h1
    have g2 : c.playersOnline - b.playersOnline ≤ 0 := h2
    omega

instance : IsTotal SortRec sortLe := ⟨sortLe_total⟩

instance : IsTrans SortRec sortLe := ⟨sortLe_trans⟩

/-- C4 amended: the comparator sorts any result list into a permutation
where online entries precede offline ones, `playersOnline` is
non-increasing among online entries, and names are non-descending among
offline entries.  (Online entries with equal player counts compare as
ties — the comparator returns 0 without looking at names — and keep their
input order under the stable sort.) -/
theorem sortResults_spec (l : List SortRec) :
    (sortResults l).Perm l ∧
      (sortResults l).Pairwise (fun a b =>
        (a.online = false → b.online = false) ∧
        (a.online = true → b.online = true → b.playersOnline ≤ a.playersOnline) ∧
        (a.online = false → b.online = false → ¬ b.name < a.name)) := by
  constructor
  · exact List.perm_insertionSort sortLe l
  · have hs : (sortResults l).Pairwise sortLe := List.sorted_insertionSort sortLe l
    refine hs.imp ?_
    intro a b hab
    rw [sortLe, compareResults] at hab
    refine ⟨?_, ?_, ?_⟩
    · intro haf
      cases hb : b.online
      · rfl
      · rw [haf, hb] at hab
        norm_num at hab
    · intro hat hbt
      rw [hat, hbt] at hab
      have g : b.playersOnline - a.playersOnline ≤ 0 := hab
      omega
    · intro haf hbf
      rw [haf, hbf] at hab
      rw [strCmp_nonpos] at hab
      exact hab

theorem sortResults_spec_witness :
    (sortResults [{ online := true, playersOnline := 7, name := "x" },
                  { online := false, playersOnline := 0, name := "y" }]).Perm
        [{ online := true, playersOnline := 7, name := "x" },
         { online := false, playersOnline := 0, name := "y" }] :=
  (sortResults_spec _).1

/-- C4 counterexample: two online results with equal player counts are
ties for the comparator (it returns `b.players.online - a.players.online
= 0` and never consults their names), so the stable sort keeps them in
input order: name `"b"` stays before name `"a"`, refuting the claimed
ascending-name order among equal-count online entries. -/
theorem sortResults_equal_players_not_by_name :
    sortResults [{ online := true, playersOnline := 5, name := "b" },
                 { online := true, playersOnline := 5, name := "a" }]
      = [{ online := true, playersOnline := 5, name := "b" },
         { online := true, playersOnline := 5, name := "a" }] ∧
      compareResults { online := true, playersOnline := 5, name := "b" }
          { online := true, playersOnline := 5, name := "a" } = 0 ∧
      ("a" : String) < "b" := by
  refine ⟨?_, by decide, ?_⟩
  · decide
  · rw [String.lt_iff_toList_lt]
    decide

/-! ## Cache theorems -/

/-- C5: a `probeAll(useCache=true)` call whose cache age is under the
30000 ms TTL returns the cached snapshot unchanged and issues no probes;
a call after TTL expiry — or after `invalidate()` zeroes the cache
timestamp, for any `now` at least the TTL (every real clock is) — issues
probes and stores the freshly built snapshot with the new timestamp. -/
theorem queryAllServers_cache_spec (cache : ServerCache) (now : Nat)
    (results : List SortRec) (httl : cache.ttl = 30000) :
    (now - cache.lastUpdated < 30000 →
        queryAllServers cache true now results = (cache.data, cache, false)) ∧
      (30000 ≤ now - cache.lastUpdated →
        queryAllServers cache true now results
          = (some (buildSnapshot results now),
             { cache with data := some (buildSnapshot results now),
                          lastUpdated := now }, true)) ∧
      (30000 ≤ now →
        queryAllServers (invalidate cache) true now results
          = (some (buildSnapshot results now),
             { invalidate cache with data := some (buildSnapshot results now),
                                     lastUpdated := now }, true)) := by
  refine ⟨?_, ?_, ?_⟩ <;> intro h
  · rw [queryAllServers, if_pos ⟨rfl, by omega⟩]
  · rw [queryAllServers, if_neg]
    intro hcon
    rw [httl] at hcon
    omega
  · rw [queryAllServers, if_neg]
    intro hcon
    rcases hcon with ⟨-, hlt⟩
    rw [invalidate] at hlt
    simp only [httl] at hlt
    omega

/-- A filled cache for the witness. -/
def cacheEx : ServerCache :=
  { data := some (buildSnapshot [] 1000), lastUpdated := 1000, ttl := 30000 }

theorem queryAllServers_cache_spec_witness :
    queryAllServers cacheEx true 20000 [] = (cacheEx.data, cacheEx, false) ∧
      queryAllServers cacheEx true 40000 []
        = (some (buildSnapshot [] 40000),
           { cacheEx with data := some (buildSnapshot [] 40000),
                          lastUpdated := 40000 }, true) ∧
      queryAllServers (invalidate cacheEx) true 40000 []
        = (some (buildSnapshot [] 40000),
           { invalidate cacheEx with data := some (buildSnapshot [] 40000),
                                     lastUpdated := 40000 }, true) :=
  ⟨(queryAllServers_cache_spec cacheEx 20000 [] rfl).1 (by norm_num [cacheEx]),
   (queryAllServers_cache_spec cacheEx 40000 [] rfl).2.1 (by norm_num [cacheEx]),
   (queryAllServers_cache_spec cacheEx 40000 [] rfl).2.2 (by norm_num)⟩

/-! ## Store theorems -/

/-- C9 counterexample: a read failure of `servers.json` is swallowed by
the catch block of `getServerList` into an empty target list, and a write
failure by `saveServerList` into `false` — neither propagates to the
caller as a hard failure. -/
theorem getServerList_error_swallowed :
    getServerList (.error "ENOENT: no such file or directory, open servers.json")
        = [] ∧
      saveServerList (.error "EACCES: permission denied, open servers.json")
        = false :=
  ⟨rfl, rfl⟩

/-- C9 amended: store I/O failures are caught and logged, surfacing as an
empty list (read) or `false` (write) rather than as thrown errors; and a
per-target probe failure is likewise captured by `queryServer`'s catch
block as an offline result carrying the message, so it never propagates
past the fleet boundary. -/
theorem store_and_probe_failures_captured :
    (∀ e, getServerList (.error e) = []) ∧
      (∀ e, saveServerList (.error e) = false) ∧
      (∀ (srv : Target) (e : String),
        (queryServer srv (.error e)).online = false ∧
          (queryServer srv (.error e)).error = some e ∧
          (queryServer srv (.error e)).players
            = some { online := 0, max := 0, sample := [] }) :=
  ⟨fun _ => rfl, fun _ => rfl, fun _ _ => ⟨rfl, rfl, rfl⟩⟩

theorem store_and_probe_failures_captured_witness :
    getServerList (.error "EIO") = [] ∧
      saveServerList (.error "EIO") = false ∧
      (queryServer exampleTarget (.error "socket hang up")).online = false :=
  ⟨store_and_probe_failures_captured.1 "EIO",
   store_and_probe_failures_captured.2.1 "EIO",
   (store_and_probe_failures_captured.2.2 exampleTarget "socket hang up").1⟩

end MCStat
